import Mathlib

/-!
Verification of the observable contract of the demo telemetry service
(`src/examples/instrumented-app/src/app.py`).

The service is a Flask application with five routes.  Each handler performs
simulated work (random sleeps), emits telemetry (span attributes, span
events, span status, log records, a request counter, duration histograms)
and returns a JSON response — or, on the checkout failure branch, raises an
exception.

We embed each handler as a pure function from an *environment* — the values
produced by the handler's calls to `time.time()`, `random.uniform`,
`random.random`, `random.randint`, `random.choice`, and the parsed request
body — to the ordered list of telemetry `Event`s the handler performs plus a
`HandlerResult` (a JSON response with a status code, or a raised exception).
The event list is ordered exactly as the corresponding calls appear in the
Python source.
-/

/-- JSON values, as produced by Flask's `jsonify` and `request.get_json()`.
Numbers are modelled as rationals. -/
inductive Json where
  | null
  | bool (b : Bool)
  | num (q : ℚ)
  | str (s : String)
  | arr (xs : List Json)
  | obj (kvs : List (String × Json))

/-- Lookup of a key in a JSON object (`none` on non-objects or missing keys). -/
def Json.get? (j : Json) (k : String) : Option Json :=
  match j with
  | .obj kvs => (kvs.find? (fun p => p.1 == k)).map (fun p => p.2)
  | _ => none

/-- Python `str()` of a JSON-like value, used by the f-string that builds the
checkout error message from the user id. -/
def Json.pyStr : Json → String
  | .null => "None"
  | .bool true => "True"
  | .bool false => "False"
  | .num q => toString q
  | .str s => s
  | .arr xs => "[" ++ String.intercalate ", " (xs.attach.map (fun x => Json.pyStr x.1)) ++ "]"
  | .obj kvs =>
      "\x7b" ++
        String.intercalate ", "
          (kvs.attach.map (fun kv => kv.1.1 ++ ": " ++ Json.pyStr kv.1.2)) ++ "\x7d"
decreasing_by
  · have h := List.sizeOf_lt_of_mem x.2
    simp only [Json.arr.sizeOf_spec]
    omega
  · obtain ⟨⟨a, b⟩, hk⟩ := kv
    have h := List.sizeOf_lt_of_mem hk
    simp only [Json.obj.sizeOf_spec, Prod.mk.sizeOf_spec] at *
    omega

/-- Python's `dict.get(key, default)` on a parsed JSON object. -/
def dictGet (d : List (String × Json)) (k : String) (dflt : Json) : Json :=
  match d.find? (fun p => p.1 == k) with
  | some p => p.2
  | none => dflt

/-- One observable telemetry action of a handler, in program order:
span lifecycle, span attributes/events/status, log records, metric
recordings, simulated sleeps, and request-body parsing. -/
inductive Event where
  | spanStart (name : String)
  | spanEnd (name : String)
  | setAttr (span : String) (key : String) (val : Json)
  | addEvent (span : String) (name : String) (attrs : List (String × Json))
  | setStatusError (span : String) (msg : String)
  | recordException (span : String) (msg : String)
  | logInfo (msg : String) (extra : List (String × Json))
  | logError (msg : String) (extra : List (String × Json))
  | counterAdd (name : String) (amount : ℕ) (tags : List (String × Json))
  | histRecord (name : String) (value : ℚ) (tags : List (String × Json))
  | sleep (secs : ℚ)
  | parseBody

/-- The outcome a handler hands back to the HTTP layer: a response
(status code plus JSON body) or a propagating exception. -/
inductive HandlerResult where
  | response (status : ℕ) (body : Json)
  | raised (msg : String)

/-- Environment of the `/` handler: the two `time.time()` readings around the
work, the `random.uniform(0.1, 0.3)` draw, and the `time.time()` used for the
body's `timestamp` field. -/
structure HomeEnv where
  t0 : ℚ
  procTime : ℚ
  t1 : ℚ
  ts : ℚ

/-- The `/` handler (`home` in app.py). -/
def home (env : HomeEnv) : List Event × HandlerResult :=
  let duration := env.t1 - env.t0
  ([ .spanStart "home_request",
     .setAttr "home_request" "http.method" (.str "GET"),
     .setAttr "home_request" "http.route" (.str "/"),
     .setAttr "home_request" "http.endpoint" (.str "home"),
     .logInfo "Homepage request started" [("endpoint", .str "/"), ("method", .str "GET")],
     .sleep env.procTime,
     .setAttr "home_request" "processing_time" (.num env.procTime),
     .addEvent "home_request" "Request processed" [],
     .counterAdd "http_requests_total" 1
       [("method", .str "GET"), ("endpoint", .str "/"), ("status_code", .str "200")],
     .histRecord "http_request_duration_seconds" duration
       [("method", .str "GET"), ("endpoint", .str "/"), ("status_code", .str "200")],
     .logInfo "Homepage request completed successfully"
       [("endpoint", .str "/"), ("method", .str "GET"), ("status_code", .num 200),
        ("processing_time", .num env.procTime), ("total_duration", .num duration)],
     .spanEnd "home_request" ],
   .response 200 (.obj
     [("message", .str "Hello from Kubernetes OpenTelemetry Test App! 🚀"),
      ("service", .str "instrumented-app"),
      ("version", .str "1.2.0"),
      ("environment", .str "kubernetes"),
      ("processing_time", .num env.procTime),
      ("timestamp", .num env.ts)]))

/-- Environment of the `/api/data` handler: the two `time.time()` readings,
the `random.uniform(0.05, 0.15)` database-sleep draw and the
`random.uniform(0.02, 0.08)` processing-sleep draw. -/
structure DataEnv where
  t0 : ℚ
  dbTime : ℚ
  procTime : ℚ
  t1 : ℚ

/-- The fixed 3-row dataset returned by `/api/data`. -/
def dataRows : Json :=
  .arr [ .obj [("id", .num 1), ("name", .str "Alice"), ("status", .str "active")],
         .obj [("id", .num 2), ("name", .str "Bob"), ("status", .str "active")],
         .obj [("id", .num 3), ("name", .str "Charlie"), ("status", .str "inactive")] ]

/-- The `/api/data` handler (`get_data` in app.py). -/
def get_data (env : DataEnv) : List Event × HandlerResult :=
  let total := env.t1 - env.t0
  ([ .spanStart "get_data",
     .setAttr "get_data" "http.method" (.str "GET"),
     .setAttr "get_data" "http.route" (.str "/api/data"),
     .setAttr "get_data" "http.endpoint" (.str "get_data"),
     .spanStart "database_query",
     .setAttr "database_query" "db.system" (.str "postgresql"),
     .setAttr "database_query" "db.operation" (.str "SELECT"),
     .setAttr "database_query" "db.table" (.str "users"),
     .setAttr "database_query" "db.statement" (.str "SELECT id, name FROM users LIMIT 10"),
     .sleep env.dbTime,
     .setAttr "database_query" "db.rows_affected" (.num 3),
     .histRecord "db_query_duration_seconds" env.dbTime
       [("db.system", .str "postgresql"), ("db.operation", .str "SELECT"), ("db.table", .str "users")],
     .spanEnd "database_query",
     .sleep env.procTime,
     .setAttr "get_data" "processing.duration" (.num env.procTime),
     .setAttr "get_data" "request.total_duration" (.num total),
     .counterAdd "http_requests_total" 1
       [("method", .str "GET"), ("endpoint", .str "/api/data"), ("status_code", .str "200")],
     .histRecord "http_request_duration_seconds" total
       [("method", .str "GET"), ("endpoint", .str "/api/data"), ("status_code", .str "200")],
     .spanEnd "get_data" ],
   .response 200 (.obj
     [("data", dataRows),
      ("count", .num 3),
      ("db_query_time", .num env.dbTime),
      ("processing_time", .num env.procTime),
      ("total_time", .num total),
      ("service", .str "test-app")]))

/-- The six fixed checkout error-type strings (`error_types` in app.py). -/
def error_types : List String :=
  ["payment_declined", "insufficient_funds", "card_expired",
   "fraud_detected", "payment_timeout", "invalid_card_number"]

/-- Environment of the `/api/checkout` handler: the two `time.time()`
readings, the parsed request body (`none` models an absent or non-truthy
body, which `request.get_json() or {}` replaces by the empty dict), the
`random.uniform(0.1, 0.3)` payment-sleep draw, the `random.random()` draw
deciding success, the `random.randint(10000, 99999)` order number, and the
`random.choice` index into `error_types`. -/
structure CheckoutEnv where
  t0 : ℚ
  body : Option (List (String × Json))
  payTime : ℚ
  rand : ℚ
  orderNum : ℕ
  errIdx : Fin error_types.length
  t1 : ℚ

/-- Decimal rendering of a natural number, as Python's f-string formats an
`int` (most-significant digit first, no padding). -/
def natToDecimal (n : ℕ) : String :=
  if n = 0 then "0" else ((Nat.digits 10 n).reverse.map Nat.digitChar).asString

/-- The `/api/checkout` handler (`checkout` in app.py). -/
def checkout (env : CheckoutEnv) : List Event × HandlerResult :=
  let d := env.body.getD []
  let user_id := dictGet d "userId" (.str "anonymous")
  let amount := dictGet d "amount" (.num 0)
  let currency := dictGet d "userCurrency" (.str "USD")
  let email := dictGet d "email" (.str "unknown@example.com")
  let pre : List Event :=
    [ .parseBody,
      .spanStart "checkout_process",
      .setAttr "checkout_process" "http.method" (.str "POST"),
      .setAttr "checkout_process" "http.route" (.str "/api/checkout"),
      .setAttr "checkout_process" "http.endpoint" (.str "checkout"),
      .setAttr "checkout_process" "user.id" user_id,
      .setAttr "checkout_process" "user.email" email,
      .setAttr "checkout_process" "checkout.amount" amount,
      .setAttr "checkout_process" "checkout.currency" currency,
      .sleep env.payTime,
      .logInfo "Checkout process started"
        [("user_id", user_id), ("amount", amount), ("currency", currency), ("email", email)] ]
  if env.rand < 7/10 then
    let order_id := "ORD-" ++ natToDecimal env.orderNum
    let duration := env.t1 - env.t0
    (pre ++
     [ .setAttr "checkout_process" "checkout.status" (.str "success"),
       .setAttr "checkout_process" "checkout.order_id" (.str order_id),
       .setAttr "checkout_process" "payment.processed_amount" amount,
       .addEvent "checkout_process" "Payment processed successfully" [],
       .addEvent "checkout_process" "Order created" [("order.id", .str order_id)],
       .logInfo "Checkout completed successfully"
         [("user_id", user_id), ("order_id", .str order_id), ("amount", amount),
          ("currency", currency), ("payment_processing_time", .num env.payTime),
          ("status", .str "success")],
       .counterAdd "http_requests_total" 1
         [("method", .str "POST"), ("endpoint", .str "/api/checkout"),
          ("status_code", .str "200"), ("currency", currency)],
       .histRecord "http_request_duration_seconds" duration
         [("method", .str "POST"), ("endpoint", .str "/api/checkout"),
          ("status_code", .str "200"), ("currency", currency)],
       .spanEnd "checkout_process" ],
     .response 200 (.obj
       [("status", .str "success"),
        ("message", .str "Checkout completed successfully"),
        ("order_id", .str order_id),
        ("user_id", user_id),
        ("amount", amount),
        ("currency", currency),
        ("payment_processing_time", .num env.payTime),
        ("total_processing_time", .num duration),
        ("service", .str "test-app")]))
  else
    let error_type := error_types.get env.errIdx
    let error_msg := "Checkout failed: " ++ error_type ++ " for user " ++ user_id.pyStr
    let duration := env.t1 - env.t0
    (pre ++
     [ .setStatusError "checkout_process" error_msg,
       .setAttr "checkout_process" "error.type" (.str error_type),
       .setAttr "checkout_process" "error.message" (.str error_msg),
       .setAttr "checkout_process" "checkout.status" (.str "failed"),
       .setAttr "checkout_process" "payment.failure_reason" (.str error_type),
       .setAttr "checkout_process" "payment.attempted_amount" amount,
       .addEvent "checkout_process" "Payment failed"
         [("failure.reason", .str error_type), ("user.id", user_id), ("amount", amount)],
       .recordException "checkout_process" error_msg,
       .logError "Checkout failed with payment error"
         [("user_id", user_id), ("amount", amount), ("currency", currency),
          ("error_type", .str error_type), ("error_message", .str error_msg),
          ("payment_processing_time", .num env.payTime), ("status", .str "failed")],
       .counterAdd "http_requests_total" 1
         [("method", .str "POST"), ("endpoint", .str "/api/checkout"),
          ("status_code", .str "500"), ("currency", currency),
          ("error_type", .str error_type)],
       .histRecord "http_request_duration_seconds" duration
         [("method", .str "POST"), ("endpoint", .str "/api/checkout"),
          ("status_code", .str "500"), ("currency", currency),
          ("error_type", .str error_type)],
       .spanEnd "checkout_process" ],
     .raised error_msg)

/-- Environment of the `/api/error` handler: the two `time.time()` readings
and the `random.uniform(0.05, 0.15)` sleep draw. -/
structure ErrorEnv where
  t0 : ℚ
  procTime : ℚ
  t1 : ℚ

/-- The `/api/error` handler (`simulate_error` in app.py). -/
def simulate_error (env : ErrorEnv) : List Event × HandlerResult :=
  let error_msg := "Simulated error for testing traces and error metrics"
  let duration := env.t1 - env.t0
  ([ .spanStart "error_simulation",
     .setAttr "error_simulation" "http.method" (.str "GET"),
     .setAttr "error_simulation" "http.route" (.str "/api/error"),
     .setAttr "error_simulation" "http.endpoint" (.str "simulate_error"),
     .sleep env.procTime,
     .setStatusError "error_simulation" error_msg,
     .recordException "error_simulation" error_msg,
     .setAttr "error_simulation" "error.type" (.str "SimulatedError"),
     .setAttr "error_simulation" "error.message" (.str error_msg),
     .counterAdd "http_requests_total" 1
       [("method", .str "GET"), ("endpoint", .str "/api/error"), ("status_code", .str "500")],
     .histRecord "http_request_duration_seconds" duration
       [("method", .str "GET"), ("endpoint", .str "/api/error"), ("status_code", .str "500")],
     .spanEnd "error_simulation" ],
   .response 500 (.obj
     [("error", .str error_msg),
      ("error_type", .str "SimulatedError"),
      ("processing_time", .num env.procTime),
      ("service", .str "test-app")]))

/-- Environment of the `/health` handler: the two `time.time()` readings and
the `time.time()` used for the body's `timestamp`. -/
structure HealthEnv where
  t0 : ℚ
  t1 : ℚ
  ts : ℚ

/-- The `/health` handler (`health` in app.py). -/
def health (env : HealthEnv) : List Event × HandlerResult :=
  let duration := env.t1 - env.t0
  ([ .spanStart "health_check",
     .setAttr "health_check" "http.method" (.str "GET"),
     .setAttr "health_check" "http.route" (.str "/health"),
     .setAttr "health_check" "http.endpoint" (.str "health"),
     .counterAdd "http_requests_total" 1
       [("method", .str "GET"), ("endpoint", .str "/health"), ("status_code", .str "200")],
     .histRecord "http_request_duration_seconds" duration
       [("method", .str "GET"), ("endpoint", .str "/health"), ("status_code", .str "200")],
     .spanEnd "health_check" ],
   .response 200 (.obj
     [("status", .str "healthy"),
      ("service", .str "instrumented-app"),
      ("version", .str "1.2.0"),
      ("features", .arr [.str "auto-instrumentation", .str "custom-metrics", .str "apm-ready"]),
      ("timestamp", .num env.ts)]))

/-- The hexadecimal digit characters used by Python's `'x'` format
(lowercase). -/
def hexDigitChar (n : ℕ) : Char :=
  if n < 10 then Char.ofNat (48 + n) else Char.ofNat (87 + n)

/-- Python's `format(n, '0<w>x')`: lowercase hexadecimal, left-padded with
zeros to width `w` (longer representations are kept whole). -/
def format0x (w n : ℕ) : String :=
  let ds := (Nat.digits 16 n).reverse.map hexDigitChar
  (List.replicate (w - ds.length) '0' ++ ds).asString

/-- Information about the currently active span, as seen by
`trace.get_current_span()`: whether it is recording, and its trace and span
identifiers.  A missing active span is modelled by `isRecording = false`
(OpenTelemetry's invalid span). -/
structure SpanInfo where
  isRecording : Bool
  traceId : ℕ
  spanId : ℕ

/-- The request fields the completion hook reads. -/
structure ReqInfo where
  method : String
  path : String
  userAgent : String
  remoteAddr : String

/-- An HTTP response as seen by the `after_request` hook. -/
structure Response where
  status : ℕ
  headers : List (String × String)
  body : Json

/-- The request-completion hook `OpenTelemetryHTTPLogger.log_request`
(installed via `@app.after_request` as `log_request_with_trace_context`):
when the active span is recording it emits one info-level log line with the
request/response fields and the hex-encoded trace and span identifiers, and
it always returns the response it was given. -/
def log_request (span : SpanInfo) (req : ReqInfo) (resp : Response) :
    List Event × Response :=
  if span.isRecording then
    let trace_id := format0x 32 span.traceId
    let span_id := format0x 16 span.spanId
    ([ .logInfo
         ("HTTP Request: " ++ req.method ++ " " ++ req.path ++ " " ++ natToDecimal resp.status)
         [("http.method", .str req.method),
          ("http.path", .str req.path),
          ("http.status_code", .num resp.status),
          ("http.user_agent", .str req.userAgent),
          ("http.remote_addr", .str req.remoteAddr),
          ("trace_id", .str trace_id),
          ("span_id", .str span_id)] ], resp)
  else
    ([], resp)

/-- Selects the custom request-counter events (`http_requests_total`). -/
def isReqCounter : Event → Bool
  | .counterAdd "http_requests_total" _ _ => true
  | _ => false

/-- Selects the custom request-duration histogram events
(`http_request_duration_seconds`). -/
def isReqHist : Event → Bool
  | .histRecord "http_request_duration_seconds" _ _ => true
  | _ => false

/-- Selects the database-duration histogram events
(`db_query_duration_seconds`). -/
def isDbHist : Event → Bool
  | .histRecord "db_query_duration_seconds" _ _ => true
  | _ => false

/-- Selects the events that set one of the three HTTP span attributes
`http.method`, `http.route`, `http.endpoint`. -/
def isHttpAttr : Event → Bool
  | .setAttr _ "http.method" _ => true
  | .setAttr _ "http.route" _ => true
  | .setAttr _ "http.endpoint" _ => true
  | _ => false

/-- Selects the events that count as work of the request other than span
bookkeeping: sleeping, parsing the body, logging, and recording metrics. -/
def isWorkEv : Event → Bool
  | .sleep _ => true
  | .parseBody => true
  | .logInfo _ _ => true
  | .logError _ _ => true
  | .counterAdd _ _ _ => true
  | .histRecord _ _ _ => true
  | _ => false

/-- Like `isWorkEv` but not counting request-body parsing as work. -/
def isWorkNoParse : Event → Bool
  | .parseBody => false
  | e => isWorkEv e

/-- A trace sets all three HTTP span attributes before the first work event
(every handler sets exactly these three `http.*` attributes). -/
def httpAttrsFirst (w : Event → Bool) (evs : List Event) : Bool :=
  (evs.takeWhile (fun e => ! w e)).countP isHttpAttr == 3

/-- A character is a lowercase hexadecimal digit. -/
def isHexChar (c : Char) : Bool :=
  ('0' ≤ c && c ≤ '9') || ('a' ≤ c && c ≤ 'f')

/-- A string matches the order-id pattern `ORD-\d\x7b5\x7d`. -/
def matchesOrd (s : String) : Bool :=
  s.data.length == 9 && s.data.take 4 == ['O', 'R', 'D', '-'] &&
    (s.data.drop 4).all Char.isDigit

/-- Data of a character list rendered as a string. -/
lemma asString_data (l : List Char) : (List.asString l).data = l := rfl

/-- Length of a character list rendered as a string. -/
lemma asString_len (l : List Char) : (List.asString l).length = l.length := rfl

/-- Every hexadecimal digit value maps to a hexadecimal character. -/
lemma hexDigitChar_isHex : ∀ d : Fin 16, isHexChar (hexDigitChar d.val) = true := by decide

/-- A nonzero hexadecimal digit value maps to a character other than `'0'`. -/
lemma hexDigitChar_ne_zero : ∀ d : Fin 16, d.val ≠ 0 → hexDigitChar d.val ≠ '0' := by decide

/-- Every decimal digit value maps to a decimal digit character. -/
lemma digitChar_isDigit : ∀ d : Fin 10, (Nat.digitChar d.val).isDigit = true := by decide

/-- A number below `b ^ w` has at most `w` base-`b` digits. -/
lemma digits_len_le {b n w : ℕ} (hb : 1 < b) (hn : n ≠ 0) (hw : n < b ^ w) :
    (Nat.digits b n).length ≤ w := by
  rw [Nat.digits_len b n hb hn]
  have := (Nat.lt_pow_iff_log_lt hb hn).mp hw
  omega

/-- Zero-padded hexadecimal rendering of `n < 16 ^ w` has exactly `w`
characters. -/
lemma format0x_length {w n : ℕ} (hn : n ≠ 0) (hw : n < 16 ^ w) :
    (format0x w n).length = w := by
  have hle : ((Nat.digits 16 n).reverse.map hexDigitChar).length ≤ w := by
    simp only [List.length_map, List.length_reverse]
    exact digits_len_le (by norm_num) hn hw
  simp only [format0x, asString_len, List.length_append, List.length_replicate]
  omega

/-- Every character of a zero-padded hexadecimal rendering is a hexadecimal
character. -/
lemma format0x_hex {w n : ℕ} : ∀ c ∈ (format0x w n).data, isHexChar c = true := by
  intro c hc
  have hc' : c ∈ List.replicate (w - ((Nat.digits 16 n).reverse.map hexDigitChar).length) '0'
      ++ (Nat.digits 16 n).reverse.map hexDigitChar := hc
  rcases List.mem_append.mp hc' with h | h
  · have := List.eq_of_mem_replicate h
    subst this; decide
  · obtain ⟨d, hd, rfl⟩ := List.mem_map.mp h
    have hd16 : d < 16 := Nat.digits_lt_base (by norm_num) (List.mem_reverse.mp hd)
    exact hexDigitChar_isHex ⟨d, hd16⟩

/-- The zero-padded hexadecimal rendering of a nonzero number has a
character other than `'0'`. -/
lemma format0x_ne_zero {w n : ℕ} (hn : n ≠ 0) :
    ∃ c ∈ (format0x w n).data, c ≠ '0' := by
  have hne : Nat.digits 16 n ≠ [] := Nat.digits_ne_nil_iff_ne_zero.mpr hn
  set L := Nat.digits 16 n with hL
  have hlast := Nat.getLast_digit_ne_zero 16 hn
  have hmem : L.getLast hne ∈ L := List.getLast_mem hne
  have h16 : L.getLast hne < 16 := Nat.digits_lt_base (by norm_num) hmem
  refine ⟨hexDigitChar (L.getLast hne), ?_, hexDigitChar_ne_zero ⟨_, h16⟩ hlast⟩
  have : hexDigitChar (L.getLast hne) ∈ L.reverse.map hexDigitChar :=
    List.mem_map.mpr ⟨_, List.mem_reverse.mpr hmem, rfl⟩
  exact List.mem_append.mpr (Or.inr this)

/-- The decimal rendering of `10000 ≤ n < 100000` has exactly five
characters, all decimal digits. -/
lemma natToDecimal_data {n : ℕ} (h4 : 10000 ≤ n) (h5 : n < 100000) :
    (natToDecimal n).data.length = 5 ∧ ∀ c ∈ (natToDecimal n).data, c.isDigit = true := by
  have hn : n ≠ 0 := by omega
  have hdata : (natToDecimal n).data = (Nat.digits 10 n).reverse.map Nat.digitChar := by
    unfold natToDecimal
    rw [if_neg hn]
    exact asString_data _
  constructor
  · rw [hdata]
    simp only [List.length_map, List.length_reverse]
    rw [Nat.digits_len 10 n (by norm_num) hn]
    have hlt : Nat.log 10 n < 5 := (Nat.lt_pow_iff_log_lt (by norm_num) hn).mp (by omega)
    have hge : 4 ≤ Nat.log 10 n := (Nat.pow_le_iff_le_log (by norm_num) hn).mp (by omega)
    omega
  · intro c hc
    rw [hdata] at hc
    obtain ⟨d, hd, rfl⟩ := List.mem_map.mp hc
    have hd10 : d < 10 := Nat.digits_lt_base (by norm_num) (List.mem_reverse.mp hd)
    exact digitChar_isDigit ⟨d, hd10⟩

/-- An order id `"ORD-" ++ natToDecimal n` with `10000 ≤ n < 100000` matches
the pattern `ORD-` followed by exactly five decimal digits. -/
lemma matchesOrd_orderId {n : ℕ} (h4 : 10000 ≤ n) (h5 : n < 100000) :
    matchesOrd ("ORD-" ++ natToDecimal n) = true := by
  obtain ⟨hlen, hdig⟩ := natToDecimal_data h4 h5
  have hdata : ("ORD-" ++ natToDecimal n).data = 'O' :: 'R' :: 'D' :: '-' :: (natToDecimal n).data := by
    cases h : natToDecimal n with
    | mk l => rfl
  unfold matchesOrd
  rw [hdata]
  have h9 : ('O' :: 'R' :: 'D' :: '-' :: (natToDecimal n).data).length = 9 := by
    simp only [List.length_cons, hlen]
  simp only [h9, List.take_succ_cons, List.take_zero, List.drop_succ_cons, List.drop_zero,
    beq_self_eq_true, Bool.true_and, Bool.and_eq_true, List.all_eq_true, beq_iff_eq]
  exact fun c hc => hdig c hc

/-- C10: the request-completion hook always returns exactly the response
object it was given, unchanged (same status code, headers, and body), both
when it emits a log line and when it is a no-op. -/
theorem c10_hook_preserves_response (span : SpanInfo) (req : ReqInfo) (resp : Response) :
    (log_request span req resp).2 = resp := by
  unfold log_request
  split <;> rfl

/-- C7: every GET request to `/`, `/api/data`, or `/health` yields status 200
and a JSON body with the documented fields: for `/` the processing time and a
timestamp; for `/api/data` the fixed 3-row dataset with count 3 and the
timing fields; for `/health` status "healthy", service "instrumented-app",
version "1.2.0" and the static capability list. -/
theorem c7_basic_routes_200_with_fields (e1 : HomeEnv) (e2 : DataEnv) (e5 : HealthEnv) :
    (∃ b, (home e1).2 = .response 200 b ∧
       b.get? "processing_time" = some (.num e1.procTime) ∧
       b.get? "timestamp" = some (.num e1.ts)) ∧
    (∃ b, (get_data e2).2 = .response 200 b ∧
       b.get? "data" = some dataRows ∧
       b.get? "count" = some (.num 3) ∧
       b.get? "db_query_time" = some (.num e2.dbTime) ∧
       b.get? "processing_time" = some (.num e2.procTime) ∧
       b.get? "total_time" = some (.num (e2.t1 - e2.t0))) ∧
    (∃ b, (health e5).2 = .response 200 b ∧
       b.get? "status" = some (.str "healthy") ∧
       b.get? "service" = some (.str "instrumented-app") ∧
       b.get? "version" = some (.str "1.2.0") ∧
       b.get? "features" = some (.arr [.str "auto-instrumentation", .str "custom-metrics", .str "apm-ready"])) :=
  ⟨⟨_, rfl, rfl, rfl⟩, ⟨_, rfl, rfl, rfl, rfl, rfl, rfl⟩, ⟨_, rfl, rfl, rfl, rfl, rfl⟩⟩

/-- C6: every GET request to `/api/error` yields status 500 with a JSON body
describing the simulated error, and the span for that request gets error
status with the error message, `error.type` and `error.message` attributes,
and a recorded exception. -/
theorem c6_error_route_500_and_span_error (env : ErrorEnv) :
    (∃ b, (simulate_error env).2 = .response 500 b ∧
       b.get? "error" = some (.str "Simulated error for testing traces and error metrics") ∧
       b.get? "error_type" = some (.str "SimulatedError")) ∧
    .setStatusError "error_simulation" "Simulated error for testing traces and error metrics"
      ∈ (simulate_error env).1 ∧
    .recordException "error_simulation" "Simulated error for testing traces and error metrics"
      ∈ (simulate_error env).1 ∧
    .setAttr "error_simulation" "error.type" (.str "SimulatedError") ∈ (simulate_error env).1 ∧
    .setAttr "error_simulation" "error.message"
        (.str "Simulated error for testing traces and error metrics") ∈ (simulate_error env).1 := by
  refine ⟨⟨_, rfl, rfl, rfl⟩, ?_, ?_, ?_, ?_⟩ <;> simp [simulate_error]

/-- C1: every request records exactly one `http_requests_total` increment and
exactly one `http_request_duration_seconds` observation, tagged with the
request's method, endpoint, and final status code as a string; checkout
additionally tags currency and, on the failure branch, error_type. -/
theorem c1_request_metrics_exactly_once (e1 : HomeEnv) (e2 : DataEnv) (e3 : CheckoutEnv)
    (e4 : ErrorEnv) (e5 : HealthEnv) :
    ((home e1).1.filter isReqCounter = [.counterAdd "http_requests_total" 1
        [("method", .str "GET"), ("endpoint", .str "/"), ("status_code", .str "200")]] ∧
     (home e1).1.filter isReqHist = [.histRecord "http_request_duration_seconds" (e1.t1 - e1.t0)
        [("method", .str "GET"), ("endpoint", .str "/"), ("status_code", .str "200")]]) ∧
    ((get_data e2).1.filter isReqCounter = [.counterAdd "http_requests_total" 1
        [("method", .str "GET"), ("endpoint", .str "/api/data"), ("status_code", .str "200")]] ∧
     (get_data e2).1.filter isReqHist = [.histRecord "http_request_duration_seconds" (e2.t1 - e2.t0)
        [("method", .str "GET"), ("endpoint", .str "/api/data"), ("status_code", .str "200")]]) ∧
    (e3.rand < 7/10 →
      (checkout e3).1.filter isReqCounter = [.counterAdd "http_requests_total" 1
        [("method", .str "POST"), ("endpoint", .str "/api/checkout"), ("status_code", .str "200"),
         ("currency", dictGet (e3.body.getD []) "userCurrency" (.str "USD"))]] ∧
      (checkout e3).1.filter isReqHist = [.histRecord "http_request_duration_seconds" (e3.t1 - e3.t0)
        [("method", .str "POST"), ("endpoint", .str "/api/checkout"), ("status_code", .str "200"),
         ("currency", dictGet (e3.body.getD []) "userCurrency" (.str "USD"))]]) ∧
    (¬ e3.rand < 7/10 →
      (checkout e3).1.filter isReqCounter = [.counterAdd "http_requests_total" 1
        [("method", .str "POST"), ("endpoint", .str "/api/checkout"), ("status_code", .str "500"),
         ("currency", dictGet (e3.body.getD []) "userCurrency" (.str "USD")),
         ("error_type", .str (error_types.get e3.errIdx))]] ∧
      (checkout e3).1.filter isReqHist = [.histRecord "http_request_duration_seconds" (e3.t1 - e3.t0)
        [("method", .str "POST"), ("endpoint", .str "/api/checkout"), ("status_code", .str "500"),
         ("currency", dictGet (e3.body.getD []) "userCurrency" (.str "USD")),
         ("error_type", .str (error_types.get e3.errIdx))]]) ∧
    ((simulate_error e4).1.filter isReqCounter = [.counterAdd "http_requests_total" 1
        [("method", .str "GET"), ("endpoint", .str "/api/error"), ("status_code", .str "500")]] ∧
     (simulate_error e4).1.filter isReqHist = [.histRecord "http_request_duration_seconds" (e4.t1 - e4.t0)
        [("method", .str "GET"), ("endpoint", .str "/api/error"), ("status_code", .str "500")]]) ∧
    ((health e5).1.filter isReqCounter = [.counterAdd "http_requests_total" 1
        [("method", .str "GET"), ("endpoint", .str "/health"), ("status_code", .str "200")]] ∧
     (health e5).1.filter isReqHist = [.histRecord "http_request_duration_seconds" (e5.t1 - e5.t0)
        [("method", .str "GET"), ("endpoint", .str "/health"), ("status_code", .str "200")]]) := by
  refine ⟨⟨rfl, rfl⟩, ⟨rfl, rfl⟩, ?_, ?_, ⟨rfl, rfl⟩, ⟨rfl, rfl⟩⟩
  · intro h
    constructor
    · simp only [checkout]; rw [if_pos h]; rfl
    · simp only [checkout]; rw [if_pos h]; rfl
  · intro h
    constructor
    · simp only [checkout]; rw [if_neg h]; rfl
    · simp only [checkout]; rw [if_neg h]; rfl

/-- C1 witness: the checkout branch conclusions of
`c1_request_metrics_exactly_once` instantiated at concrete environments for
both the success draw and the failure draw. -/
theorem c1_request_metrics_exactly_once_witness :
    (checkout ⟨0, none, 0, 0, 12345, ⟨0, by decide⟩, 0⟩).1.filter isReqCounter =
      [.counterAdd "http_requests_total" 1
        [("method", .str "POST"), ("endpoint", .str "/api/checkout"), ("status_code", .str "200"),
         ("currency", .str "USD")]] ∧
    (checkout ⟨0, none, 0, 1, 12345, ⟨0, by decide⟩, 0⟩).1.filter isReqCounter =
      [.counterAdd "http_requests_total" 1
        [("method", .str "POST"), ("endpoint", .str "/api/checkout"), ("status_code", .str "500"),
         ("currency", .str "USD"), ("error_type", .str "payment_declined")]] :=
  ⟨((c1_request_metrics_exactly_once ⟨0, 0, 0, 0⟩ ⟨0, 0, 0, 0⟩
      ⟨0, none, 0, 0, 12345, ⟨0, by decide⟩, 0⟩ ⟨0, 0, 0⟩ ⟨0, 0, 0⟩).2.2.1
      (by norm_num)).1,
   ((c1_request_metrics_exactly_once ⟨0, 0, 0, 0⟩ ⟨0, 0, 0, 0⟩
      ⟨0, none, 0, 1, 12345, ⟨0, by decide⟩, 0⟩ ⟨0, 0, 0⟩ ⟨0, 0, 0⟩).2.2.2.1
      (by norm_num)).1⟩

/-- C2: the checkout handler takes the success branch exactly when the
uniform draw is below 0.7; on success it returns 200 with body status
"success" and an order id matching `ORD-` plus five digits; otherwise the
error type is one of the six fixed strings, drawn by index from that list,
and the span carries it as `error.type`. -/
theorem c2_checkout_branches (env : CheckoutEnv)
    (hlo : 10000 ≤ env.orderNum) (hhi : env.orderNum ≤ 99999) :
    ((∃ b, (checkout env).2 = .response 200 b) ↔ env.rand < 7/10) ∧
    (env.rand < 7/10 →
      ∃ b, (checkout env).2 = .response 200 b ∧
        b.get? "status" = some (.str "success") ∧
        ∃ oid, b.get? "order_id" = some (.str oid) ∧ matchesOrd oid = true) ∧
    (¬ env.rand < 7/10 →
      error_types.get env.errIdx ∈ error_types ∧
      .setAttr "checkout_process" "error.type" (.str (error_types.get env.errIdx))
        ∈ (checkout env).1 ∧
      ∃ m, (checkout env).2 = .raised m) := by
  by_cases h : env.rand < 7/10
  · have hresp : (checkout env).2 = .response 200 (.obj
      [("status", .str "success"),
       ("message", .str "Checkout completed successfully"),
       ("order_id", .str ("ORD-" ++ natToDecimal env.orderNum)),
       ("user_id", dictGet (env.body.getD []) "userId" (.str "anonymous")),
       ("amount", dictGet (env.body.getD []) "amount" (.num 0)),
       ("currency", dictGet (env.body.getD []) "userCurrency" (.str "USD")),
       ("payment_processing_time", .num env.payTime),
       ("total_processing_time", .num (env.t1 - env.t0)),
       ("service", .str "test-app")]) := by
      simp only [checkout]; rw [if_pos h]
    exact ⟨⟨fun _ => h, fun _ => ⟨_, hresp⟩⟩,
      fun _ => ⟨_, hresp, rfl, "ORD-" ++ natToDecimal env.orderNum, rfl,
        matchesOrd_orderId hlo (by omega)⟩,
      fun h' => absurd h h'⟩
  · have hres : (checkout env).2 = .raised ("Checkout failed: " ++ error_types.get env.errIdx
        ++ " for user " ++ (dictGet (env.body.getD []) "userId" (.str "anonymous")).pyStr) := by
      simp only [checkout]; rw [if_neg h]
    refine ⟨⟨?_, fun hh => absurd hh h⟩, fun hh => absurd hh h,
      fun _ => ⟨List.get_mem _ _ _, ?_, _, hres⟩⟩
    · rintro ⟨b, hb⟩
      rw [hres] at hb
      simp at hb
    · simp only [checkout]; rw [if_neg h]
      simp

/-- C2 witness: `c2_checkout_branches` instantiated at concrete environments
for a success draw and a failure draw. -/
theorem c2_checkout_branches_witness :
    (∃ b, (checkout ⟨0, none, 0, 0, 12345, ⟨2, by decide⟩, 0⟩).2 = .response 200 b ∧
       b.get? "status" = some (.str "success") ∧
       ∃ oid, b.get? "order_id" = some (.str oid) ∧ matchesOrd oid = true) ∧
    (∃ m, (checkout ⟨0, none, 0, 1, 12345, ⟨2, by decide⟩, 0⟩).2 = .raised m) :=
  ⟨(c2_checkout_branches ⟨0, none, 0, 0, 12345, ⟨2, by decide⟩, 0⟩
      (by norm_num) (by norm_num)).2.1 (by norm_num),
   ((c2_checkout_branches ⟨0, none, 0, 1, 12345, ⟨2, by decide⟩, 0⟩
      (by norm_num) (by norm_num)).2.2 (by norm_num)).2.2⟩

/-- C3: on the checkout failure branch the handler's outcome is a raised,
uncaught exception, and the trace it performed before raising contains the
span error status with the error message, the error attributes, the
error-level log record, and the error-tagged counter increment and histogram
observation; the caller never receives a success payload on this branch. -/
theorem c3_checkout_failure_raises_after_telemetry (env : CheckoutEnv)
    (h : ¬ env.rand < 7/10) :
    ∃ msg, (checkout env).2 = .raised msg ∧
      .setStatusError "checkout_process" msg ∈ (checkout env).1 ∧
      .setAttr "checkout_process" "error.message" (.str msg) ∈ (checkout env).1 ∧
      .setAttr "checkout_process" "error.type" (.str (error_types.get env.errIdx))
        ∈ (checkout env).1 ∧
      (∃ extra, .logError "Checkout failed with payment error" extra ∈ (checkout env).1) ∧
      (∃ tags, .counterAdd "http_requests_total" 1 tags ∈ (checkout env).1 ∧
        ("status_code", Json.str "500") ∈ tags ∧
        ("error_type", Json.str (error_types.get env.errIdx)) ∈ tags) ∧
      (∃ dur tags, .histRecord "http_request_duration_seconds" dur tags ∈ (checkout env).1 ∧
        ("status_code", Json.str "500") ∈ tags ∧
        ("error_type", Json.str (error_types.get env.errIdx)) ∈ tags) ∧
      ∀ s b, (checkout env).2 ≠ .response s b := by
  have hres : (checkout env).2 = .raised ("Checkout failed: " ++ error_types.get env.errIdx
      ++ " for user " ++ (dictGet (env.body.getD []) "userId" (.str "anonymous")).pyStr) := by
    simp only [checkout]; rw [if_neg h]
  refine ⟨_, hres, ?_, ?_, ?_,
    ⟨[("user_id", dictGet (env.body.getD []) "userId" (.str "anonymous")),
      ("amount", dictGet (env.body.getD []) "amount" (.num 0)),
      ("currency", dictGet (env.body.getD []) "userCurrency" (.str "USD")),
      ("error_type", .str (error_types.get env.errIdx)),
      ("error_message", .str ("Checkout failed: " ++ error_types.get env.errIdx
        ++ " for user " ++ (dictGet (env.body.getD []) "userId" (.str "anonymous")).pyStr)),
      ("payment_processing_time", .num env.payTime), ("status", .str "failed")], ?_⟩,
    ⟨[("method", .str "POST"), ("endpoint", .str "/api/checkout"), ("status_code", .str "500"),
      ("currency", dictGet (env.body.getD []) "userCurrency" (.str "USD")),
      ("error_type", .str (error_types.get env.errIdx))], ?_, by simp, by simp⟩,
    ⟨env.t1 - env.t0,
     [("method", .str "POST"), ("endpoint", .str "/api/checkout"), ("status_code", .str "500"),
      ("currency", dictGet (env.body.getD []) "userCurrency" (.str "USD")),
      ("error_type", .str (error_types.get env.errIdx))], ?_, by simp, by simp⟩, ?_⟩
  · simp only [checkout]; rw [if_neg h]; simp
  · simp only [checkout]; rw [if_neg h]; simp
  · simp only [checkout]; rw [if_neg h]; simp
  · simp only [checkout]; rw [if_neg h]; simp
  · simp only [checkout]; rw [if_neg h]; simp
  · simp only [checkout]; rw [if_neg h]; simp
  · intro s b hb
    rw [hres] at hb
    simp at hb

/-- C3 witness: `c3_checkout_failure_raises_after_telemetry` instantiated at
a concrete failing environment. -/
theorem c3_checkout_failure_raises_after_telemetry_witness :
    ∃ msg, (checkout ⟨0, none, 0, 1, 12345, ⟨5, by decide⟩, 0⟩).2 = .raised msg ∧
      .setStatusError "checkout_process" msg
        ∈ (checkout ⟨0, none, 0, 1, 12345, ⟨5, by decide⟩, 0⟩).1 ∧
      .setAttr "checkout_process" "error.message" (.str msg)
        ∈ (checkout ⟨0, none, 0, 1, 12345, ⟨5, by decide⟩, 0⟩).1 ∧
      .setAttr "checkout_process" "error.type" (.str (error_types.get ⟨5, by decide⟩))
        ∈ (checkout ⟨0, none, 0, 1, 12345, ⟨5, by decide⟩, 0⟩).1 ∧
      (∃ extra, .logError "Checkout failed with payment error" extra
        ∈ (checkout ⟨0, none, 0, 1, 12345, ⟨5, by decide⟩, 0⟩).1) ∧
      (∃ tags, .counterAdd "http_requests_total" 1 tags
          ∈ (checkout ⟨0, none, 0, 1, 12345, ⟨5, by decide⟩, 0⟩).1 ∧
        ("status_code", Json.str "500") ∈ tags ∧
        ("error_type", Json.str (error_types.get ⟨5, by decide⟩)) ∈ tags) ∧
      (∃ dur tags, .histRecord "http_request_duration_seconds" dur tags
          ∈ (checkout ⟨0, none, 0, 1, 12345, ⟨5, by decide⟩, 0⟩).1 ∧
        ("status_code", Json.str "500") ∈ tags ∧
        ("error_type", Json.str (error_types.get ⟨5, by decide⟩)) ∈ tags) ∧
      ∀ s b, (checkout ⟨0, none, 0, 1, 12345, ⟨5, by decide⟩, 0⟩).2 ≠ .response s b :=
  c3_checkout_failure_raises_after_telemetry ⟨0, none, 0, 1, 12345, ⟨5, by decide⟩, 0⟩
    (by norm_num)

/-- C5: every GET request to `/api/data` records exactly one
`db_query_duration_seconds` observation, tagged with db.system, db.operation
and db.table, and that observation precedes the end of the database child
span, which precedes the end of the parent `get_data` span; no other handler
records this histogram. -/
theorem c5_db_histogram_once_before_span_end (e2 : DataEnv) (e1 : HomeEnv) (e3 : CheckoutEnv)
    (e4 : ErrorEnv) (e5 : HealthEnv) :
    (get_data e2).1.filter isDbHist = [.histRecord "db_query_duration_seconds" e2.dbTime
        [("db.system", .str "postgresql"), ("db.operation", .str "SELECT"),
         ("db.table", .str "users")]] ∧
    (∃ l1 l2 l3 l4, (get_data e2).1 = l1 ++
        .histRecord "db_query_duration_seconds" e2.dbTime
          [("db.system", .str "postgresql"), ("db.operation", .str "SELECT"),
           ("db.table", .str "users")] :: l2 ++
        .spanEnd "database_query" :: l3 ++ .spanEnd "get_data" :: l4) ∧
    (home e1).1.filter isDbHist = [] ∧
    (checkout e3).1.filter isDbHist = [] ∧
    (simulate_error e4).1.filter isDbHist = [] ∧
    (health e5).1.filter isDbHist = [] := by
  have hc : (checkout e3).1.filter isDbHist = [] := by
    by_cases h : e3.rand < 7/10
    · simp only [checkout]; rw [if_pos h]; rfl
    · simp only [checkout]; rw [if_neg h]; rfl
  refine ⟨rfl, ⟨[ .spanStart "get_data",
      .setAttr "get_data" "http.method" (.str "GET"),
      .setAttr "get_data" "http.route" (.str "/api/data"),
      .setAttr "get_data" "http.endpoint" (.str "get_data"),
      .spanStart "database_query",
      .setAttr "database_query" "db.system" (.str "postgresql"),
      .setAttr "database_query" "db.operation" (.str "SELECT"),
      .setAttr "database_query" "db.table" (.str "users"),
      .setAttr "database_query" "db.statement" (.str "SELECT id, name FROM users LIMIT 10"),
      .sleep e2.dbTime,
      .setAttr "database_query" "db.rows_affected" (.num 3) ], [],
      [ .sleep e2.procTime,
        .setAttr "get_data" "processing.duration" (.num e2.procTime),
        .setAttr "get_data" "request.total_duration" (.num (e2.t1 - e2.t0)),
        .counterAdd "http_requests_total" 1
          [("method", .str "GET"), ("endpoint", .str "/api/data"), ("status_code", .str "200")],
        .histRecord "http_request_duration_seconds" (e2.t1 - e2.t0)
          [("method", .str "GET"), ("endpoint", .str "/api/data"), ("status_code", .str "200")] ],
      [], rfl⟩, rfl, hc, rfl, rfl⟩

/-- C4: when the completion hook runs with a recording active span, it emits
exactly one info-level log line carrying the request method, path, status
code, user-agent, remote address, and the hex-encoded identifiers of that
span — a 32-hex-digit trace id and a 16-hex-digit span id, both non-zero;
with no recording span it emits nothing. -/
theorem c4_completion_hook_log_line (span : SpanInfo) (req : ReqInfo) (resp : Response)
    (htr0 : span.traceId ≠ 0) (htr : span.traceId < 16 ^ 32)
    (hsp0 : span.spanId ≠ 0) (hsp : span.spanId < 16 ^ 16) :
    (span.isRecording = true →
      (log_request span req resp).1 =
        [.logInfo ("HTTP Request: " ++ req.method ++ " " ++ req.path ++ " "
            ++ natToDecimal resp.status)
          [("http.method", .str req.method), ("http.path", .str req.path),
           ("http.status_code", .num resp.status), ("http.user_agent", .str req.userAgent),
           ("http.remote_addr", .str req.remoteAddr),
           ("trace_id", .str (format0x 32 span.traceId)),
           ("span_id", .str (format0x 16 span.spanId))]] ∧
      (format0x 32 span.traceId).length = 32 ∧
      (∀ c ∈ (format0x 32 span.traceId).data, isHexChar c = true) ∧
      (∃ c ∈ (format0x 32 span.traceId).data, c ≠ '0') ∧
      (format0x 16 span.spanId).length = 16 ∧
      (∀ c ∈ (format0x 16 span.spanId).data, isHexChar c = true) ∧
      (∃ c ∈ (format0x 16 span.spanId).data, c ≠ '0')) ∧
    (span.isRecording = false → (log_request span req resp).1 = []) := by
  constructor
  · intro hrec
    refine ⟨?_, format0x_length htr0 htr, format0x_hex, format0x_ne_zero htr0,
      format0x_length hsp0 hsp, format0x_hex, format0x_ne_zero hsp0⟩
    simp only [log_request]
    rw [if_pos hrec]
  · intro hrec
    simp only [log_request]
    rw [if_neg (by rw [hrec]; exact Bool.false_ne_true)]

/-- C4 witness: `c4_completion_hook_log_line` instantiated at a recording
span with identifiers 1, and at a non-recording span. -/
theorem c4_completion_hook_log_line_witness :
    (format0x 32 1).length = 32 ∧
    (log_request ⟨false, 1, 1⟩ ⟨"GET", "/", "ua", "127.0.0.1"⟩ ⟨200, [], .null⟩).1 = [] :=
  ⟨((c4_completion_hook_log_line ⟨true, 1, 1⟩ ⟨"GET", "/", "ua", "127.0.0.1"⟩ ⟨200, [], .null⟩
      (by norm_num) (by norm_num) (by norm_num) (by norm_num)).1 rfl).2.1,
   (c4_completion_hook_log_line ⟨false, 1, 1⟩ ⟨"GET", "/", "ua", "127.0.0.1"⟩ ⟨200, [], .null⟩
      (by norm_num) (by norm_num) (by norm_num) (by norm_num)).2 rfl⟩

/-- C8 counterexample: the checkout handler does not set the three `http.*`
span attributes before all other request work — it parses the request body
first (line 300 of app.py precedes the span and its attributes), so at this
concrete environment the three attributes do not precede the first work
event of the trace. -/
theorem c8_attrs_before_work_counterexample :
    httpAttrsFirst isWorkEv (checkout ⟨0, none, 0, 0, 10000, ⟨0, by decide⟩, 0⟩).1 = false := by
  simp only [checkout]
  rw [if_pos (by norm_num : (0:ℚ) < 7/10)]
  rfl

/-- C8 amended: every handler sets the three `http.*` span attributes before
sleeping, logging, or recording metrics; the checkout handler, however,
parses the request body before opening its span and setting those
attributes. On error paths the handlers additionally set `error.type` and
`error.message` attributes and record the exception with an error status. -/
theorem c8_amended_attrs_before_work (e1 : HomeEnv) (e2 : DataEnv) (e3 : CheckoutEnv)
    (e4 : ErrorEnv) (e5 : HealthEnv) :
    httpAttrsFirst isWorkEv (home e1).1 = true ∧
    httpAttrsFirst isWorkEv (get_data e2).1 = true ∧
    httpAttrsFirst isWorkEv (simulate_error e4).1 = true ∧
    httpAttrsFirst isWorkEv (health e5).1 = true ∧
    httpAttrsFirst isWorkNoParse (checkout e3).1 = true ∧
    (∃ rest, (checkout e3).1 = .parseBody :: rest) ∧
    (¬ e3.rand < 7/10 →
      .setStatusError "checkout_process" ("Checkout failed: " ++ error_types.get e3.errIdx
          ++ " for user " ++ (dictGet (e3.body.getD []) "userId" (.str "anonymous")).pyStr)
        ∈ (checkout e3).1 ∧
      .setAttr "checkout_process" "error.type" (.str (error_types.get e3.errIdx))
        ∈ (checkout e3).1 ∧
      .setAttr "checkout_process" "error.message"
          (.str ("Checkout failed: " ++ error_types.get e3.errIdx ++ " for user "
            ++ (dictGet (e3.body.getD []) "userId" (.str "anonymous")).pyStr))
        ∈ (checkout e3).1 ∧
      .recordException "checkout_process" ("Checkout failed: " ++ error_types.get e3.errIdx
          ++ " for user " ++ (dictGet (e3.body.getD []) "userId" (.str "anonymous")).pyStr)
        ∈ (checkout e3).1) ∧
    (.setStatusError "error_simulation" "Simulated error for testing traces and error metrics"
        ∈ (simulate_error e4).1 ∧
     .setAttr "error_simulation" "error.type" (.str "SimulatedError") ∈ (simulate_error e4).1 ∧
     .setAttr "error_simulation" "error.message"
        (.str "Simulated error for testing traces and error metrics") ∈ (simulate_error e4).1 ∧
     .recordException "error_simulation" "Simulated error for testing traces and error metrics"
        ∈ (simulate_error e4).1) := by
  have hfirst : httpAttrsFirst isWorkNoParse (checkout e3).1 = true := by
    by_cases h : e3.rand < 7/10
    · simp only [checkout]; rw [if_pos h]; rfl
    · simp only [checkout]; rw [if_neg h]; rfl
  have hparse : ∃ rest, (checkout e3).1 = .parseBody :: rest := by
    by_cases h : e3.rand < 7/10
    · exact ⟨_, by simp only [checkout]; rw [if_pos h]; rfl⟩
    · exact ⟨_, by simp only [checkout]; rw [if_neg h]; rfl⟩
  have herr : ¬ e3.rand < 7/10 →
      .setStatusError "checkout_process" ("Checkout failed: " ++ error_types.get e3.errIdx
          ++ " for user " ++ (dictGet (e3.body.getD []) "userId" (.str "anonymous")).pyStr)
        ∈ (checkout e3).1 ∧
      .setAttr "checkout_process" "error.type" (.str (error_types.get e3.errIdx))
        ∈ (checkout e3).1 ∧
      .setAttr "checkout_process" "error.message"
          (.str ("Checkout failed: " ++ error_types.get e3.errIdx ++ " for user "
            ++ (dictGet (e3.body.getD []) "userId" (.str "anonymous")).pyStr))
        ∈ (checkout e3).1 ∧
      .recordException "checkout_process" ("Checkout failed: " ++ error_types.get e3.errIdx
          ++ " for user " ++ (dictGet (e3.body.getD []) "userId" (.str "anonymous")).pyStr)
        ∈ (checkout e3).1 := by
    intro h
    refine ⟨?_, ?_, ?_, ?_⟩ <;> (simp only [checkout]; rw [if_neg h]; simp)
  exact ⟨rfl, rfl, rfl, rfl, hfirst, hparse, herr,
    by simp [simulate_error], by simp [simulate_error],
    by simp [simulate_error], by simp [simulate_error]⟩

/-- C8 amended witness: `c8_amended_attrs_before_work` instantiated at a
concrete failing checkout environment. -/
theorem c8_amended_attrs_before_work_witness :
    httpAttrsFirst isWorkNoParse (checkout ⟨0, none, 0, 1, 10000, ⟨0, by decide⟩, 0⟩).1 = true ∧
    .setAttr "checkout_process" "error.type" (.str "payment_declined")
      ∈ (checkout ⟨0, none, 0, 1, 10000, ⟨0, by decide⟩, 0⟩).1 := by
  have hmain := c8_amended_attrs_before_work ⟨0, 0, 0, 0⟩ ⟨0, 0, 0, 0⟩
    ⟨0, none, 0, 1, 10000, ⟨0, by decide⟩, 0⟩ ⟨0, 0, 0⟩ ⟨0, 0, 0⟩
  exact ⟨hmain.2.2.2.2.1, (hmain.2.2.2.2.2.2.1 (by norm_num)).2.1⟩

/-- C9: each checkout body field that is absent (because the body is missing
or lacks that key) individually takes its default — userId `"anonymous"`,
amount `0.0`, userCurrency `"USD"`, email `"unknown@example.com"` — and the
defaulted value is used as the span attribute, in the success response body,
and (for currency) in the metric tags of both branches. -/
theorem c9_checkout_defaults (env : CheckoutEnv) :
    ((env.body.getD []).find? (fun p => p.1 == "userId") = none →
      .setAttr "checkout_process" "user.id" (.str "anonymous") ∈ (checkout env).1 ∧
      (env.rand < 7/10 → ∃ b, (checkout env).2 = .response 200 b ∧
        b.get? "user_id" = some (.str "anonymous"))) ∧
    ((env.body.getD []).find? (fun p => p.1 == "email") = none →
      .setAttr "checkout_process" "user.email" (.str "unknown@example.com") ∈ (checkout env).1) ∧
    ((env.body.getD []).find? (fun p => p.1 == "amount") = none →
      .setAttr "checkout_process" "checkout.amount" (.num 0) ∈ (checkout env).1 ∧
      (env.rand < 7/10 → ∃ b, (checkout env).2 = .response 200 b ∧
        b.get? "amount" = some (.num 0))) ∧
    ((env.body.getD []).find? (fun p => p.1 == "userCurrency") = none →
      .setAttr "checkout_process" "checkout.currency" (.str "USD") ∈ (checkout env).1 ∧
      (env.rand < 7/10 →
        (checkout env).1.filter isReqCounter = [.counterAdd "http_requests_total" 1
          [("method", .str "POST"), ("endpoint", .str "/api/checkout"),
           ("status_code", .str "200"), ("currency", .str "USD")]] ∧
        ∃ b, (checkout env).2 = .response 200 b ∧
          b.get? "currency" = some (.str "USD")) ∧
      (¬ env.rand < 7/10 →
        (checkout env).1.filter isReqCounter = [.counterAdd "http_requests_total" 1
          [("method", .str "POST"), ("endpoint", .str "/api/checkout"),
           ("status_code", .str "500"), ("currency", .str "USD"),
           ("error_type", .str (error_types.get env.errIdx))]])) := by
  refine ⟨?_, ?_, ?_, ?_⟩
  · intro hu
    have hud : dictGet (env.body.getD []) "userId" (.str "anonymous") = .str "anonymous" := by
      unfold dictGet; rw [hu]
    constructor
    · by_cases h : env.rand < 7/10
      · simp only [checkout]; rw [if_pos h, hud]; simp
      · simp only [checkout]; rw [if_neg h, hud]; simp
    · intro h
      have hresp : (checkout env).2 = .response 200 (.obj
        [("status", .str "success"),
         ("message", .str "Checkout completed successfully"),
         ("order_id", .str ("ORD-" ++ natToDecimal env.orderNum)),
         ("user_id", .str "anonymous"),
         ("amount", dictGet (env.body.getD []) "amount" (.num 0)),
         ("currency", dictGet (env.body.getD []) "userCurrency" (.str "USD")),
         ("payment_processing_time", .num env.payTime),
         ("total_processing_time", .num (env.t1 - env.t0)),
         ("service", .str "test-app")]) := by
        simp only [checkout]; rw [if_pos h, hud]
      exact ⟨_, hresp, rfl⟩
  · intro he
    have hed : dictGet (env.body.getD []) "email" (.str "unknown@example.com")
        = .str "unknown@example.com" := by
      unfold dictGet; rw [he]
    by_cases h : env.rand < 7/10
    · simp only [checkout]; rw [if_pos h, hed]; simp
    · simp only [checkout]; rw [if_neg h, hed]; simp
  · intro ha
    have had : dictGet (env.body.getD []) "amount" (.num 0) = .num 0 := by
      unfold dictGet; rw [ha]
    constructor
    · by_cases h : env.rand < 7/10
      · simp only [checkout]; rw [if_pos h, had]; simp
      · simp only [checkout]; rw [if_neg h, had]; simp
    · intro h
      have hresp : (checkout env).2 = .response 200 (.obj
        [("status", .str "success"),
         ("message", .str "Checkout completed successfully"),
         ("order_id", .str ("ORD-" ++ natToDecimal env.orderNum)),
         ("user_id", dictGet (env.body.getD []) "userId" (.str "anonymous")),
         ("amount", .num 0),
         ("currency", dictGet (env.body.getD []) "userCurrency" (.str "USD")),
         ("payment_processing_time", .num env.payTime),
         ("total_processing_time", .num (env.t1 - env.t0)),
         ("service", .str "test-app")]) := by
        simp only [checkout]; rw [if_pos h, had]
      exact ⟨_, hresp, rfl⟩
  · intro hc
    have hcd : dictGet (env.body.getD []) "userCurrency" (.str "USD") = .str "USD" := by
      unfold dictGet; rw [hc]
    refine ⟨?_, ?_, ?_⟩
    · by_cases h : env.rand < 7/10
      · simp only [checkout]; rw [if_pos h, hcd]; simp
      · simp only [checkout]; rw [if_neg h, hcd]; simp
    · intro h
      have hresp : (checkout env).2 = .response 200 (.obj
        [("status", .str "success"),
         ("message", .str "Checkout completed successfully"),
         ("order_id", .str ("ORD-" ++ natToDecimal env.orderNum)),
         ("user_id", dictGet (env.body.getD []) "userId" (.str "anonymous")),
         ("amount", dictGet (env.body.getD []) "amount" (.num 0)),
         ("currency", .str "USD"),
         ("payment_processing_time", .num env.payTime),
         ("total_processing_time", .num (env.t1 - env.t0)),
         ("service", .str "test-app")]) := by
        simp only [checkout]; rw [if_pos h, hcd]
      refine ⟨?_, _, hresp, rfl⟩
      simp only [checkout]; rw [if_pos h, hcd]; rfl
    · intro h
      simp only [checkout]; rw [if_neg h, hcd]; rfl

/-- C9 witness: `c9_checkout_defaults` instantiated at a concrete
environment with no request body and a success draw, discharging each
per-field hypothesis. -/
theorem c9_checkout_defaults_witness :
    .setAttr "checkout_process" "user.id" (.str "anonymous")
      ∈ (checkout ⟨0, none, 0, 0, 10000, ⟨0, by decide⟩, 0⟩).1 ∧
    .setAttr "checkout_process" "user.email" (.str "unknown@example.com")
      ∈ (checkout ⟨0, none, 0, 0, 10000, ⟨0, by decide⟩, 0⟩).1 ∧
    .setAttr "checkout_process" "checkout.amount" (.num 0)
      ∈ (checkout ⟨0, none, 0, 0, 10000, ⟨0, by decide⟩, 0⟩).1 ∧
    ∃ b, (checkout ⟨0, none, 0, 0, 10000, ⟨0, by decide⟩, 0⟩).2 = .response 200 b ∧
      b.get? "currency" = some (.str "USD") := by
  have hmain := c9_checkout_defaults ⟨0, none, 0, 0, 10000, ⟨0, by decide⟩, 0⟩
  exact ⟨(hmain.1 rfl).1, hmain.2.1 rfl, (hmain.2.2.1 rfl).1,
    ((hmain.2.2.2 rfl).2.1 (by norm_num)).2⟩
